import Mathlib

/-!
# Verification of the AR capture/review controller

A shallow embedding of the two scripts of this repository: the capture-side
controller (`App` in the main script) and the standalone review script
(`shared/review.js`).  Browser and library calls (WebXR, Canvas 2D, Three.js,
MediaDevices, localStorage, `window.location`) are modelled as events in an
explicit trace, or as fields of an explicit state record; the outcomes the
environment decides (pose availability, hit-test results, camera permission,
banner-image load) are parameters of the embedded functions.
-/

/-- A 3-component position (Three.js `Vector3`); coordinates are modelled
as integers since no claim depends on their arithmetic. -/
structure V3 where
  x : Int
  y : Int
  z : Int
deriving DecidableEq, Repr

/-- The reticle's observable state: a visibility flag and a position. -/
structure Reticle where
  visible : Bool
  position : V3
deriving DecidableEq, Repr

/-- Modelled from the spec: the `Reticle` class lives in a shared utility file
that is not among the sources; the spec describes it only as the hit-test
surface indicator, hidden once the model is placed, so `hide` makes it
invisible. -/
def Reticle.hide (r : Reticle) : Reticle :=
  { r with visible := false }

/-- The placed 3D model (`this.sunflower`): a visibility flag and a position. -/
structure Model where
  visible : Bool
  position : V3
deriving DecidableEq, Repr

/-- The mutable state of the `App` controller object that the claims are
about: the placed flag (`modelCloned`), the animation flag, the stabilized
flag, whether the animation mixer exists, the optional model and reticle
handles, the shadow mesh position (when the scene has a child named
shadowMesh), the capture container's CSS display value and the body's CSS
class list. -/
structure AppState where
  modelCloned : Bool
  animation : Bool
  stabilized : Bool
  mixer : Bool
  sunflower : Option Model
  reticle : Option Reticle
  shadowMesh : Option V3
  captureContainerDisplay : String
  bodyClasses : List String
deriving DecidableEq, Repr

/-- The two animation-frame callbacks the controller ever schedules: the
per-frame `onXRFrame` handler and the one-shot capture callback created
inside `captureImage`. -/
inductive CallbackId
  | onXRFrameCB
  | captureShotCB
deriving DecidableEq, Repr

/-- Observable calls into the browser, recorded in order.  Only the calls a
claim mentions carry data; purely graphical calls are opaque markers. -/
inductive Ev
  | requestAnimationFrame (cb : CallbackId)
  | bindFramebuffer
  | setFramebuffer
  | setSize (w h : Nat)
  | mixerUpdate
  | render
  | readPixels
  | putImageData
  | getUserMedia
  | videoPlay
  | drawImage
  | setItem (key val : String)
  | navigate (url : String)
  | alert (msg : String)
  | consoleLog (msg : String)
  | consoleError (msg : String)
  | promptDisplay (v : String)
  | addClickListener
  | addSelectListener
  | callOnNoXRDevice
  | requestSession
  | createCanvas
  | updateRenderState
  | requestReferenceSpace (name : String)
  | requestHitTestSource
deriving DecidableEq, Repr

/-- Is the event a localStorage `setItem` call? -/
def isSetItem : Ev → Bool
  | .setItem _ _ => true
  | _ => false

/-- Is the event a `window.location.href` assignment (a page navigation)? -/
def isNavigate : Ev → Bool
  | .navigate _ => true
  | _ => false

/-- Is the event an animation-frame request? -/
def isRAF : Ev → Bool
  | .requestAnimationFrame _ => true
  | _ => false

/-- Is the event a call to `getUserMedia`? -/
def isGUM : Ev → Bool
  | .getUserMedia => true
  | _ => false

/-- Is the event a call to `navigator.xr.requestSession`? -/
def isRequestSession : Ev → Bool
  | .requestSession => true
  | _ => false

/-- Does the trace show the failure to the user or the console: an alert,
a console.error or a console.log? -/
def showsFailureUI (tr : List Ev) : Bool :=
  tr.any fun e =>
    match e with
    | .alert _ => true
    | .consoleError _ => true
    | .consoleLog _ => true
    | _ => false

/-- A 2D canvas, reduced to its dimensions (the pixel contents are drawn by
the browser and never inspected by this code). -/
structure Canvas where
  width : Nat
  height : Nat
deriving DecidableEq, Repr

/-- Model of the browser's `canvas.toDataURL(mime)`: it returns a
`data:<mime>;base64,` URL; the base64 payload is abstracted to the canvas
dimensions, the only data this code's canvases carry in the model. -/
def Canvas.toDataURL (c : Canvas) (mime : String) : String :=
  "data:" ++ mime ++ ";base64," ++ (toString c.width ++ "x" ++ toString c.height)

/-- `targetHeight` of `combineCanvases`: `Math.floor((3 / 4) * arCanvas.height)`
(exact in doubles for any realistic canvas height, so natural floor
division). -/
def targetHeight (h : Nat) : Nat := 3 * h / 4

/-- `cropMargin` of `combineCanvases`:
`Math.floor((arCanvas.height - targetHeight) / 2)`. -/
def cropMargin (h : Nat) : Nat := (h - targetHeight h) / 2

/-- The height `combineCanvases` gives the final canvas once the banner has
loaded: `targetHeight + bannerImage.height`. -/
def finalCanvasHeight (arH bannerH : Nat) : Nat := targetHeight arH + bannerH

/-- How loading the banner image turns out: `onload` fires with the image's
height, or `onerror` fires. -/
inductive BannerOutcome
  | loaded (height : Nat)
  | failed
deriving DecidableEq, Repr

/-- `App.combineCanvases(arCanvas, cameraCanvas)`.  The synchronous body
creates the final canvas, computes the crop arithmetic and installs the
banner image's `onload`/`onerror` handlers; the trace is what the fired
handler does.  On load: three `drawImage` calls (banner, cropped camera
feed, cropped AR content), the PNG data-URL write to localStorage under
`capturedImage`, hiding the prompt, a log, then the redirect to
`review.html`.  On error: a single alert. -/
def combineCanvases (arCanvas cameraCanvas : Canvas) (banner : BannerOutcome) :
    List Ev :=
  match banner with
  | .loaded bh =>
    let finalCanvas : Canvas := ⟨arCanvas.width, finalCanvasHeight arCanvas.height bh⟩
    [.drawImage, .drawImage, .drawImage,
     .setItem "capturedImage" (finalCanvas.toDataURL "image/png"),
     .promptDisplay "none",
     .consoleLog "Image processed and stored, redirecting to review page",
     .navigate "review.html"]
  | .failed => [.alert "Failed to load the banner image."]

/-- How the camera-feed acquisition turns out: the MediaDevices API is
missing altogether (`navigator.mediaDevices`/`getUserMedia` undefined), the
`getUserMedia` promise rejects with an error, or it resolves and the video's
`onloadeddata` fires. -/
inductive MediaOutcome
  | unavailable
  | denied (err : String)
  | granted
deriving DecidableEq, Repr

/-- `App.getCamerafeed(arCanvas, arAspectRatio)`.  When the MediaDevices API
is absent the guarding `if` has no `else`: the function returns without any
call, log or alert.  When present it calls `getUserMedia` once; on rejection
it logs the error and alerts; on success it plays the video, draws the
cropped frame onto the camera canvas (height matching the AR canvas, width
`height * 9/20`, the JS float truncated by the canvas setter) and calls
`combineCanvases`.  The aspect-ratio argument only shapes drawing geometry
and is not modelled. -/
def getCamerafeed (arCanvas : Canvas) (media : MediaOutcome)
    (banner : BannerOutcome) : List Ev :=
  match media with
  | .unavailable => []
  | .denied err =>
    [.getUserMedia,
     .consoleError ("Error accessing media devices. " ++ err),
     .alert "Failed to access the camera. Please check your browser permissions."]
  | .granted =>
    let cameraCanvas : Canvas := ⟨arCanvas.height * 9 / 20, arCanvas.height⟩
    [.getUserMedia, .videoPlay, .drawImage] ++
      combineCanvases arCanvas cameraCanvas banner

/-- The one-shot callback `captureImage` passes to `requestAnimationFrame`:
given the frame's viewer pose (its viewport, when a pose exists) it renders
the scene, reads the pixels back, flips them onto a fresh 2D canvas and
hands that canvas to `getCamerafeed`; with no pose it only logs an error.
It never requests another animation frame. -/
def captureFrameCallback (viewport : Option (Nat × Nat)) (media : MediaOutcome)
    (banner : BannerOutcome) : List Ev :=
  match viewport with
  | none =>
    [.consoleLog "requestAnimationFrame called",
     .consoleError "No pose available for capture"]
  | some (w, h) =>
    [.consoleLog "requestAnimationFrame called",
     .consoleLog "Pose obtained, rendering scene",
     .setSize w h, .render,
     .consoleLog "Scene rendered, capturing pixels",
     .readPixels,
     .consoleLog "Pixels captured, processing image",
     .putImageData] ++
      getCamerafeed ⟨w, h⟩ media banner

/-- `App.captureImage`: shows the prompt, logs, and schedules exactly one
animation frame whose callback is the one-shot capture callback. -/
def captureImage : List Ev :=
  [.promptDisplay "flex", .consoleLog "Starting capture process",
   .requestAnimationFrame .captureShotCB]

/-- What the per-frame handler sees in a frame: the viewer pose's viewport
(none when `getViewerPose` returns null) and the positions of the hit-test
results (the handler uses the first). -/
structure FrameInput where
  viewport : Option (Nat × Nat)
  hits : List V3
deriving DecidableEq, Repr

/-- `App.onXRFrame(time, frame)`.  It first re-requests an animation frame
with itself, binds the framebuffer, and hands it to the renderer; with a
pose it resizes the renderer, updates the camera, marks the body stabilized
on the first hit, moves and shows the reticle on a hit while the model is
not yet placed (logging an error otherwise), advances the mixer when an
animation is playing, and renders. -/
def onXRFrame (st : AppState) (inp : FrameInput) : AppState × List Ev :=
  let pre : List Ev := [.requestAnimationFrame .onXRFrameCB, .bindFramebuffer,
    .setFramebuffer]
  match inp.viewport with
  | none => (st, pre)
  | some (w, h) =>
    let st1 : AppState :=
      if !st.stabilized && !inp.hits.isEmpty then
        { st with stabilized := true, bodyClasses := st.bodyClasses ++ ["stabilized"] }
      else st
    let step2 : AppState × List Ev :=
      match inp.hits with
      | [] => (st1, [])
      | hp :: _ =>
        match st1.reticle, st1.modelCloned with
        | some r, false =>
          ({ st1 with reticle := some { r with visible := true, position := hp } }, [])
        | _, _ => (st1, [.consoleError "Reticle is not found."])
    let mixEv : List Ev := if step2.1.mixer && step2.1.animation then [.mixerUpdate] else []
    (step2.1, pre ++ [.setSize w h] ++ step2.2 ++ mixEv ++ [.render])

/-- `App.onSelect`.  While the model is unplaced and loaded it copies the
reticle position into the model, shows it, shows the capture container,
aligns the shadow mesh (when found), sets the placed flag and hides the
reticle; `none` models the TypeError thrown by `this.reticle.position` if
the reticle handle were null on that path.  In every other case the handler
changes nothing. -/
def onSelect (st : AppState) : Option AppState :=
  match st.modelCloned, st.sunflower with
  | false, some m =>
    match st.reticle with
    | none => none
    | some r =>
      let m1 : Model := { m with position := r.position, visible := true }
      let shadow : Option V3 :=
        match st.shadowMesh with
        | some p => some { p with y := m1.position.y }
        | none => none
      some { st with
        sunflower := some m1,
        captureContainerDisplay := "flex",
        shadowMesh := shadow,
        modelCloned := true,
        reticle := some r.hide }
  | _, _ => some st

/-- What the GLTF loader hands the load callback in `setupThreeJs`: the
scene's initial position and whether the file carries animations. -/
structure GltfData where
  modelPosition : V3
  hasAnimations : Bool
deriving DecidableEq, Repr

/-- The GLTF load callback in `setupThreeJs`: stores the loaded scene in
`this.sunflower` hidden, creates the mixer, and sets the animation flag
when the file has animations. -/
def gltfOnLoad (st : AppState) (g : GltfData) : AppState :=
  { st with
    sunflower := some { visible := false, position := g.modelPosition },
    mixer := true,
    animation := if g.hasAnimations then true else st.animation }

/-- The four ways the support probe of the top-level IIFE can come out:
`navigator.xr` missing, `navigator.xr.isSessionSupported` missing, the
probe resolving false, or resolving true. -/
inductive XRSupport
  | noXRObject
  | noIsSupportedFn
  | notSupported
  | supported
deriving DecidableEq, Repr

/-- The top-level IIFE: when `immersive-ar` is supported it wires the
enter-AR button to `activateXR`; in every other case it calls
`onNoXRDevice()` (the shared no-XR fallback UI). -/
def checkARSupport : XRSupport → List Ev
  | .supported => [.addClickListener]
  | _ => [.callOnNoXRDevice]

/-- How the `requestSession` promise comes out. -/
inductive SessionOutcome
  | ok
  | rejected (e : String)
deriving DecidableEq, Repr

/-- `App.activateXR`: one `requestSession` call inside a try; on success it
creates the XR canvas and starts the session (reference spaces, hit-test
source, the first animation-frame request, the select listener); on
rejection the catch logs the exception and calls `onNoXRDevice()`. -/
def activateXR (outcome : SessionOutcome) : List Ev :=
  match outcome with
  | .ok =>
    [.requestSession, .createCanvas, .updateRenderState,
     .requestReferenceSpace "local", .requestReferenceSpace "viewer",
     .requestHitTestSource, .requestAnimationFrame .onXRFrameCB,
     .addSelectListener]
  | .rejected e => [.requestSession, .consoleLog e, .callOnNoXRDevice]

/-- The dimensions the review script reads off the loaded image. -/
structure LoadedImage where
  width : Nat
  height : Nat
deriving DecidableEq, Repr

/-- What a run of the review script did: the alert it showed (if any), the
`src` it gave the displayed image, the size it gave the canvas, whether it
drew onto the canvas, and whether it configured the download and share
buttons. -/
structure ReviewResult where
  alerted : Option String
  imgSrc : Option String
  canvasSize : Option (Nat × Nat)
  drewImage : Bool
  downloadConfigured : Bool
  shareConfigured : Bool
deriving DecidableEq, Repr

/-- `shared/review.js`: reads `capturedImage` from localStorage.  When
present it sets the displayed image's src and, once the image loads
(`load` carries its dimensions), resizes the canvas, draws the flipped
image, and configures the download and share buttons; when the image never
loads nothing beyond the src assignment happens.  When the key is absent it
only alerts. -/
def reviewScript (storage : String → Option String) (load : Option LoadedImage) :
    ReviewResult :=
  match storage "capturedImage" with
  | some d =>
    match load with
    | some img =>
      { alerted := none, imgSrc := some d, canvasSize := some (img.width, img.height),
        drewImage := true, downloadConfigured := true, shareConfigured := true }
    | none =>
      { alerted := none, imgSrc := some d, canvasSize := none,
        drewImage := false, downloadConfigured := false, shareConfigured := false }
  | none =>
    { alerted := some "No image data available.", imgSrc := none, canvasSize := none,
      drewImage := false, downloadConfigured := false, shareConfigured := false }

/-! ## Helper lemmas -/

/-- Once the placed flag is set, `onSelect`'s guard fails and the handler
returns the state unchanged. -/
theorem onSelect_fixed_of_cloned (s : AppState) (h : s.modelCloned = true) :
    onSelect s = some s := by
  unfold onSelect
  rw [h]

/-- `toDataURL` with the `image/png` MIME type yields a string of the form
`data:image/png;base64,` followed by the payload. -/
theorem toDataURL_png (c : Canvas) :
    c.toDataURL "image/png" =
      "data:image/png;base64," ++ (toString c.width ++ "x" ++ toString c.height) := rfl

/-! ## The claims -/

/-- C1: when browser-local storage has no entry under `capturedImage`, the
review script alerts and does not render: it sets no image src, does not
resize or draw on the canvas, and configures neither the download nor the
share button — whatever the (never-fired) image load would have carried. -/
theorem review_missing_image_alerts_and_does_not_render
    (storage : String → Option String) (load : Option LoadedImage)
    (h : storage "capturedImage" = none) :
    reviewScript storage load =
      { alerted := some "No image data available.", imgSrc := none, canvasSize := none,
        drewImage := false, downloadConfigured := false, shareConfigured := false } := by
  unfold reviewScript
  rw [h]

/-- Witness for C1: empty storage, image never loads. -/
theorem review_missing_image_alerts_and_does_not_render_witness :
    reviewScript (fun _ => none) none =
      { alerted := some "No image data available.", imgSrc := none, canvasSize := none,
        drewImage := false, downloadConfigured := false, shareConfigured := false } :=
  review_missing_image_alerts_and_does_not_render (fun _ => none) none rfl

/-- C2: on the successful capture path (banner loaded), `combineCanvases`
performs exactly one localStorage write — a PNG data URL under the fixed key
`capturedImage` — and that write precedes the navigation to `review.html`;
moreover for every banner outcome, if the trace navigates at all then it
contains a `capturedImage` write at an earlier position. -/
theorem combineCanvases_writes_once_before_navigating (ar cam : Canvas) (bh : Nat) :
    (combineCanvases ar cam (.loaded bh)).filter isSetItem =
      [.setItem "capturedImage"
        ("data:image/png;base64," ++
          (toString ar.width ++ "x" ++ toString (finalCanvasHeight ar.height bh)))] ∧
    (combineCanvases ar cam (.loaded bh)).findIdx isSetItem <
      (combineCanvases ar cam (.loaded bh)).findIdx isNavigate ∧
    (∀ b : BannerOutcome, (combineCanvases ar cam b).any isNavigate = true →
      (combineCanvases ar cam b).any isSetItem = true ∧
      (combineCanvases ar cam b).findIdx isSetItem <
        (combineCanvases ar cam b).findIdx isNavigate) := by
  refine ⟨rfl, ?_, fun b hnav => ?_⟩
  · show (3 : Nat) < 6
    decide
  · cases b with
    | loaded bh2 =>
      refine ⟨rfl, ?_⟩
      show (3 : Nat) < 6
      decide
    | failed => simp [combineCanvases, isNavigate] at hnav

/-- C3: the first select with a loaded model copies the reticle position into
the model, shows it, shows the capture container and sets the placed flag;
and on any state whose placed flag is set — in particular the state the
first select produces — `onSelect` returns the state unchanged, so every
subsequent select leaves the model position, the placed flag and the
capture-container display as they were. -/
theorem onSelect_places_model_once (st : AppState) (m : Model) (r : Reticle)
    (h1 : st.modelCloned = false) (h2 : st.sunflower = some m) (h3 : st.reticle = some r) :
    (∃ st2 : AppState,
      onSelect st = some st2 ∧
      st2.sunflower = some { m with position := r.position, visible := true } ∧
      st2.modelCloned = true ∧
      st2.captureContainerDisplay = "flex" ∧
      onSelect st2 = some st2) ∧
    (∀ s : AppState, s.modelCloned = true → onSelect s = some s) := by
  refine ⟨?_, fun s hs => onSelect_fixed_of_cloned s hs⟩
  have key : onSelect st = some { st with
      sunflower := some { m with position := r.position, visible := true },
      captureContainerDisplay := "flex",
      shadowMesh := (match st.shadowMesh with
        | some p => some { p with y := r.position.y }
        | none => none),
      modelCloned := true,
      reticle := some r.hide } := by
    unfold onSelect
    rw [h1, h2, h3]
  exact ⟨_, key, rfl, rfl, rfl, onSelect_fixed_of_cloned _ rfl⟩

/-- Witness for C3: a fresh state with the model loaded and the reticle on a
surface point. -/
theorem onSelect_places_model_once_witness :
    (∃ st2 : AppState,
      onSelect { modelCloned := false, animation := false, stabilized := true,
                 mixer := true, sunflower := some { visible := false, position := ⟨0, 0, 0⟩ },
                 reticle := some { visible := true, position := ⟨1, 2, 3⟩ },
                 shadowMesh := none, captureContainerDisplay := "none",
                 bodyClasses := [] } = some st2 ∧
      st2.sunflower = some { visible := true, position := ⟨1, 2, 3⟩ } ∧
      st2.modelCloned = true ∧
      st2.captureContainerDisplay = "flex" ∧
      onSelect st2 = some st2) ∧
    (∀ s : AppState, s.modelCloned = true → onSelect s = some s) :=
  onSelect_places_model_once
    { modelCloned := false, animation := false, stabilized := true,
      mixer := true, sunflower := some { visible := false, position := ⟨0, 0, 0⟩ },
      reticle := some { visible := true, position := ⟨1, 2, 3⟩ },
      shadowMesh := none, captureContainerDisplay := "none", bodyClasses := [] }
    { visible := false, position := ⟨0, 0, 0⟩ }
    { visible := true, position := ⟨1, 2, 3⟩ } rfl rfl rfl

/-- C4 counterexample: when the MediaDevices API is unavailable,
`getCamerafeed`'s guarding `if` has no else branch, so the function emits no
call at all — no log and no alert — contradicting the claim that every
camera-acquisition failure is surfaced to the user or the console. -/
theorem camerafeed_unavailable_silent :
    getCamerafeed ⟨640, 480⟩ .unavailable (.loaded 100) = [] ∧
    showsFailureUI (getCamerafeed ⟨640, 480⟩ .unavailable (.loaded 100)) = false :=
  ⟨rfl, rfl⟩

/-- C4 as amended: when `getUserMedia` rejects (camera permission denied),
`getCamerafeed` logs the error, shows a blocking alert and does not retry —
the trace holds exactly one `getUserMedia` call; when the MediaDevices API
is unavailable, it silently does nothing. -/
theorem camerafeed_failure_handling (c : Canvas) (err : String) (b : BannerOutcome) :
    getCamerafeed c (.denied err) b =
      [.getUserMedia, .consoleError ("Error accessing media devices. " ++ err),
       .alert "Failed to access the camera. Please check your browser permissions."] ∧
    ((getCamerafeed c (.denied err) b).filter isGUM).length = 1 ∧
    getCamerafeed c .unavailable b = [] :=
  ⟨rfl, rfl, rfl⟩

/-- C5: when the banner image fails to load, `combineCanvases` only alerts:
nothing is written to localStorage and no navigation happens. -/
theorem combineCanvases_banner_failure_atomic (ar cam : Canvas) :
    combineCanvases ar cam .failed = [.alert "Failed to load the banner image."] ∧
    (combineCanvases ar cam .failed).any isSetItem = false ∧
    (combineCanvases ar cam .failed).any isNavigate = false :=
  ⟨rfl, rfl, rfl⟩

/-- C6: every unsupported outcome of the support probe calls the no-XR
fallback; a rejected session request logs the exception and calls the no-XR
fallback; and every run of `activateXR` makes exactly one `requestSession`
call (no retry). -/
theorem no_xr_fallback_paths :
    checkARSupport .noXRObject = [.callOnNoXRDevice] ∧
    checkARSupport .noIsSupportedFn = [.callOnNoXRDevice] ∧
    checkARSupport .notSupported = [.callOnNoXRDevice] ∧
    (∀ e : String, activateXR (.rejected e) =
      [.requestSession, .consoleLog e, .callOnNoXRDevice]) ∧
    (∀ o : SessionOutcome, ((activateXR o).filter isRequestSession).length = 1) := by
  refine ⟨rfl, rfl, rfl, fun e => rfl, fun o => ?_⟩
  cases o <;> rfl

/-- C7: every invocation of `onXRFrame` begins by re-requesting an animation
frame with itself, before any pose check; the capture gesture schedules
exactly one frame callback — the one-shot capture callback — and that
callback's own trace contains no animation-frame request, whatever the
pose, camera and banner outcomes. -/
theorem frame_callback_rearm_capture_oneshot :
    (∀ (st : AppState) (inp : FrameInput),
      ((onXRFrame st inp).2).head? = some (.requestAnimationFrame .onXRFrameCB)) ∧
    captureImage.filter isRAF = [.requestAnimationFrame .captureShotCB] ∧
    (∀ (vp : Option (Nat × Nat)) (media : MediaOutcome) (banner : BannerOutcome),
      (captureFrameCallback vp media banner).filter isRAF = []) := by
  refine ⟨fun st inp => ?_, rfl, fun vp media banner => ?_⟩
  · rcases inp with ⟨vp, hits⟩
    cases vp with
    | none => rfl
    | some wh => rcases wh with ⟨w, hgt⟩; rfl
  · cases vp with
    | none => rfl
    | some wh =>
      rcases wh with ⟨w, hgt⟩
      cases media <;> cases banner <;> rfl

/-- C8: a select arriving while the model handle is still unset changes
nothing at all — the state (placed flag, capture container, reticle) is
returned unchanged — and after the GLTF load callback fills the handle, a
select on the loaded state performs the placement. -/
theorem onSelect_noop_before_model_load (st : AppState) (g : GltfData) (r : Reticle)
    (h1 : st.sunflower = none) (h2 : st.modelCloned = false) (h3 : st.reticle = some r) :
    onSelect st = some st ∧
    (∃ st2 : AppState,
      onSelect (gltfOnLoad st g) = some st2 ∧
      st2.modelCloned = true ∧
      st2.sunflower = some { visible := true, position := r.position } ∧
      st2.captureContainerDisplay = "flex") := by
  constructor
  · unfold onSelect
    rw [h2, h1]
  · have hc : (gltfOnLoad st g).modelCloned = false := h2
    have hs : (gltfOnLoad st g).sunflower =
        some { visible := false, position := g.modelPosition } := rfl
    have hr : (gltfOnLoad st g).reticle = some r := h3
    unfold onSelect
    rw [hc, hs, hr]
    exact ⟨_, rfl, rfl, rfl, rfl⟩

/-- Witness for C8: a state with no model yet, then the loader delivers the
model and the next select places it. -/
theorem onSelect_noop_before_model_load_witness :
    onSelect { modelCloned := false, animation := false, stabilized := false,
               mixer := false, sunflower := none,
               reticle := some { visible := true, position := ⟨4, 5, 6⟩ },
               shadowMesh := none, captureContainerDisplay := "none",
               bodyClasses := [] } =
      some { modelCloned := false, animation := false, stabilized := false,
             mixer := false, sunflower := none,
             reticle := some { visible := true, position := ⟨4, 5, 6⟩ },
             shadowMesh := none, captureContainerDisplay := "none",
             bodyClasses := [] } ∧
    (∃ st2 : AppState,
      onSelect (gltfOnLoad
        { modelCloned := false, animation := false, stabilized := false,
          mixer := false, sunflower := none,
          reticle := some { visible := true, position := ⟨4, 5, 6⟩ },
          shadowMesh := none, captureContainerDisplay := "none", bodyClasses := [] }
        { modelPosition := ⟨0, 0, 0⟩, hasAnimations := true }) = some st2 ∧
      st2.modelCloned = true ∧
      st2.sunflower = some { visible := true, position := ⟨4, 5, 6⟩ } ∧
      st2.captureContainerDisplay = "flex") :=
  onSelect_noop_before_model_load
    { modelCloned := false, animation := false, stabilized := false,
      mixer := false, sunflower := none,
      reticle := some { visible := true, position := ⟨4, 5, 6⟩ },
      shadowMesh := none, captureContainerDisplay := "none", bodyClasses := [] }
    { modelPosition := ⟨0, 0, 0⟩, hasAnimations := true }
    { visible := true, position := ⟨4, 5, 6⟩ } rfl rfl rfl

/-- C9: the crop arithmetic of `combineCanvases` stays in bounds for every
AR canvas height: the cropped region `[cropMargin, cropMargin + targetHeight)`
lies within the source canvas, and the final canvas height is the target
height plus the banner height. -/
theorem crop_arithmetic_in_bounds (h bh : Nat) :
    cropMargin h + targetHeight h ≤ h ∧
    finalCanvasHeight h bh = targetHeight h + bh := by
  refine ⟨?_, rfl⟩
  unfold cropMargin targetHeight
  omega

/-- C10: once the placed flag is set, `onXRFrame` never touches the reticle
again — its visibility and position after the frame equal those before,
whatever the pose and hit-test results. -/
theorem onXRFrame_reticle_frozen_after_place (st : AppState) (inp : FrameInput)
    (h : st.modelCloned = true) :
    ((onXRFrame st inp).1).reticle = st.reticle := by
  rcases inp with ⟨vp, hits⟩
  cases vp with
  | none => rfl
  | some wh =>
    rcases wh with ⟨w, hgt⟩
    cases hits with
    | nil =>
      cases hstab : st.stabilized <;> cases hr : st.reticle <;>
        simp [onXRFrame, hstab, hr, h]
    | cons hp tl =>
      cases hstab : st.stabilized <;> cases hr : st.reticle <;>
        simp [onXRFrame, hstab, hr, h]

/-- Witness for C10: a placed state, a frame with a pose and one hit. -/
theorem onXRFrame_reticle_frozen_after_place_witness :
    ((onXRFrame
        { modelCloned := true, animation := true, stabilized := false,
          mixer := true, sunflower := some { visible := true, position := ⟨1, 2, 3⟩ },
          reticle := some { visible := false, position := ⟨1, 2, 3⟩ },
          shadowMesh := none, captureContainerDisplay := "flex", bodyClasses := [] }
        { viewport := some (1080, 2400), hits := [⟨7, 8, 9⟩] }).1).reticle =
      ({ modelCloned := true, animation := true, stabilized := false,
         mixer := true, sunflower := some { visible := true, position := ⟨1, 2, 3⟩ },
         reticle := some { visible := false, position := ⟨1, 2, 3⟩ },
         shadowMesh := none, captureContainerDisplay := "flex",
         bodyClasses := [] } : AppState).reticle :=
  onXRFrame_reticle_frozen_after_place
    { modelCloned := true, animation := true, stabilized := false,
      mixer := true, sunflower := some { visible := true, position := ⟨1, 2, 3⟩ },
      reticle := some { visible := false, position := ⟨1, 2, 3⟩ },
      shadowMesh := none, captureContainerDisplay := "flex", bodyClasses := [] }
    { viewport := some (1080, 2400), hits := [⟨7, 8, 9⟩] } rfl
